import Mathlib

/-!
A shallow embedding of the authoritative pistol-duel server: the physics
body (`Gun`), projectiles, per-room state, the per-tick simulation pass and
the message handlers, taken from `src/server.js` and the heat-mechanics
variant `src/unnamed/part_000`.  JavaScript numbers are modelled as exact
rationals.  `Math.hypot`, `Math.cos`, `Math.sin` and `Math.random` are
irrational- or nondeterministic-valued; where the source consumes such a
value the embedding takes it as an explicit parameter (`r` for
`Math.hypot(vx, vy)`, `ca`/`sa` for the cosine/sine of the barrel angle,
`rnd` for `Math.random()`, `a` for the randomized spawn angle), and any
theorem whose truth depends on the parameter being the true hypotenuse
carries that defining hypothesis explicitly.
-/

/-- The two player slots of a match (the strings `"blue"` and `"white"` in
the source). -/
inductive Slot where
  | blue
  | white
deriving DecidableEq, Repr

/-- Model of `Math.abs` on exact rationals. -/
def jsAbs (q : ℚ) : ℚ := if q < 0 then -q else q

/-- The `Math.abs` model agrees with the absolute value. -/
theorem jsAbs_eq_abs (q : ℚ) : jsAbs q = |q| := by
  rcases lt_or_le q 0 with h | h
  · rw [jsAbs, if_pos h, abs_of_neg h]
  · rw [jsAbs, if_neg (not_lt.mpr h), abs_of_nonneg h]

namespace ServerJs

/-! Embedding of `src/server.js`.  Constants from the `PHYSICS` block. -/

def GRAVITY : ℚ := 0.02
def RECOIL_FORCE : ℚ := 3.2
def BULLET_SPEED : ℚ := 9
def WALL_RESTITUTION : ℚ := 0.85
def ANGULAR_TRANSFER : ℚ := 0.015
def ROTATION_DAMPING : ℚ := 0.992
def LINEAR_DAMPING : ℚ := 0.998
def MAX_SPEED : ℚ := 7.5
def MAX_ANGULAR_SPEED : ℚ := 0.22
def WIDTH : ℚ := 420
def HEIGHT : ℚ := 640

/-- The per-player physics body (`class Gun` in `src/server.js`). -/
structure Gun where
  x : ℚ
  y : ℚ
  vx : ℚ
  vy : ℚ
  angle : ℚ
  av : ℚ
  radius : ℚ
deriving DecidableEq, Repr

/-- The `Gun` constructor: zero velocities, radius 20, randomized spawn
angle passed in as `a` (`Math.random() * Math.PI * 2` in the source). -/
def mkGun (x y a : ℚ) : Gun :=
  { x := x, y := y, vx := 0, vy := 0, angle := a, av := 0, radius := 20 }

/-- Squared magnitude of the linear velocity.  The source compares
`Math.hypot(vx, vy)` against `MAX_SPEED`; since both sides are
nonnegative that comparison is equivalent to comparing the squares,
which is exact over ℚ. -/
def speedSq (g : Gun) : ℚ := g.vx ^ 2 + g.vy ^ 2

/-- The method `Gun.applyWallCollision(nx, ny)`: reflect the velocity component along
the inward normal when moving into the wall, lose energy by the
restitution factor and transfer spin proportional to the impact speed. -/
def applyWallCollision (nx ny : ℚ) (g : Gun) : Gun :=
  let dot := g.vx * nx + g.vy * ny
  if dot < 0 then
    { g with
      vx := (g.vx - 2 * dot * nx) * WALL_RESTITUTION
      vy := (g.vy - 2 * dot * ny) * WALL_RESTITUTION
      av := g.av + dot * ANGULAR_TRANSFER }
  else g

/-- First lines of `Gun.update()`: gravity is added to the vertical
velocity. -/
def gravityStep (g : Gun) : Gun := { g with vy := g.vy + GRAVITY }

/-- Position/orientation integration lines of `Gun.update()` (`x += vx`,
`y += vy` with the post-gravity `vy`, `angle += av`). -/
def integrateStep (g : Gun) : Gun :=
  { g with x := g.x + g.vx, y := g.y + g.vy, angle := g.angle + g.av }

/-- Damping lines of `Gun.update()`. -/
def dampStep (g : Gun) : Gun :=
  { g with
    vx := g.vx * LINEAR_DAMPING
    vy := g.vy * LINEAR_DAMPING
    av := g.av * ROTATION_DAMPING }

/-- The `clamp linear speed` block of the `ENERGY CLAMP` section of
`Gun.update()`.  `r` stands for the value `Math.hypot(vx, vy)` computed
by the source at this point; the branch condition `speed > MAX_SPEED` is
expressed by the equivalent exact comparison of squares, and the rescale
factor `s = MAX_SPEED / speed` uses `r`. -/
def speedClamp (r : ℚ) (g : Gun) : Gun :=
  if speedSq g > MAX_SPEED ^ 2 then
    { g with vx := g.vx * (MAX_SPEED / r), vy := g.vy * (MAX_SPEED / r) }
  else g

/-- The `clamp angular speed` block of the `ENERGY CLAMP` section: the
two clamps run sequentially, as in the source. -/
def avClamp (g : Gun) : Gun :=
  let g2 := if g.av > MAX_ANGULAR_SPEED then { g with av := MAX_ANGULAR_SPEED } else g
  if g2.av < -MAX_ANGULAR_SPEED then { g2 with av := -MAX_ANGULAR_SPEED } else g2

/-- The whole `ENERGY CLAMP` section of `Gun.update()`. -/
def clampStep (r : ℚ) (g : Gun) : Gun := avClamp (speedClamp r g)

/-- First wall check of the `WALLS` section (`x - radius < 0`). -/
def wall1 (g : Gun) : Gun :=
  if g.x - g.radius < 0 then applyWallCollision 1 0 { g with x := g.radius } else g

/-- Second wall check (`x + radius > WIDTH`). -/
def wall2 (g : Gun) : Gun :=
  if g.x + g.radius > WIDTH then applyWallCollision (-1) 0 { g with x := WIDTH - g.radius }
  else g

/-- Third wall check (`y - radius < 0`). -/
def wall3 (g : Gun) : Gun :=
  if g.y - g.radius < 0 then applyWallCollision 0 1 { g with y := g.radius } else g

/-- Fourth wall check (`y + radius > HEIGHT`). -/
def wall4 (g : Gun) : Gun :=
  if g.y + g.radius > HEIGHT then applyWallCollision 0 (-1) { g with y := HEIGHT - g.radius }
  else g

/-- The `WALLS` section of `Gun.update()`: the four checks run in source
order on the successively mutated state. -/
def wallsStep (g : Gun) : Gun := wall4 (wall3 (wall2 (wall1 g)))

/-- The method `Gun.update()`: gravity, integration, damping, energy clamp, walls,
in source order.  `r` is the `Math.hypot` value of the post-damping
velocity (see `clampStep`). -/
def update (r : ℚ) (g : Gun) : Gun :=
  wallsStep (clampStep r (dampStep (integrateStep (gravityStep g))))

/-- A projectile.  The source stores `owner: this`, a reference to the
firing `Gun` object, and compares it with `!==` against the two player
objects; since the only `Gun` objects a room ever holds are its two
players and every reset clears the bullet list in the same step that
replaces the players, that reference is represented by the slot whose
player object it is. -/
structure Bullet where
  x : ℚ
  y : ℚ
  vx : ℚ
  vy : ℚ
  owner : Slot
deriving DecidableEq, Repr

/-- The method `Gun.shoot(bullets)`: spawn a bullet 32 units ahead of the barrel,
apply recoil and a randomized angular kick.  `ca`/`sa` are
`Math.cos(a)`/`Math.sin(a)` for the current angle, `rnd` is
`Math.random()`, `owner` the slot of the firing player (see `Bullet`). -/
def shoot (ca sa rnd : ℚ) (owner : Slot) (g : Gun) (bullets : List Bullet) :
    Gun × List Bullet :=
  let bs := bullets ++ [{ x := g.x + ca * 32, y := g.y + sa * 32,
                          vx := ca * BULLET_SPEED, vy := sa * BULLET_SPEED,
                          owner := owner }]
  ({ g with
      vx := g.vx - ca * RECOIL_FORCE
      vy := g.vy - sa * RECOIL_FORCE
      av := g.av - (rnd - 0.5) * 0.06 }, bs)

/-- The two bodies of a room (`room.players`). -/
structure Players where
  blue : Gun
  white : Gun
deriving DecidableEq, Repr

/-- A room of `src/server.js` (`createRoom()`s shape).  The `clients`
object holds at most one connection per slot; connections are identified
by a number. -/
structure Room where
  players : Players
  bullets : List Bullet
  clientBlue : Option Nat
  clientWhite : Option Nat
  gameOver : Bool
  winner : Option Slot
  rematchBlue : Bool
  rematchWhite : Bool
deriving DecidableEq, Repr

/-- The function `createRoom()`: fresh bodies at the fixed spawn points (randomized
spawn angles `a1`, `a2`), no bullets, no clients, game not over. -/
def createRoom (a1 a2 : ℚ) : Room :=
  { players := ⟨mkGun 90 (HEIGHT - 120) a1, mkGun (WIDTH - 90) (HEIGHT - 120) a2⟩
    bullets := []
    clientBlue := none
    clientWhite := none
    gameOver := false
    winner := none
    rematchBlue := false
    rematchWhite := false }

/-- The function `resetRoom(room)`: respawn both bodies, clear bullets, clear the game
over flag, winner and rematch flags; the bound clients are kept. -/
def resetRoom (a1 a2 : ℚ) (r : Room) : Room :=
  { r with
    players := ⟨mkGun 90 (HEIGHT - 120) a1, mkGun (WIDTH - 90) (HEIGHT - 120) a2⟩
    bullets := []
    gameOver := false
    winner := none
    rematchBlue := false
    rematchWhite := false }

/-- The function `hit(b, g)`: the axis-aligned box test with exclusive half-width 20
(`Math.abs(b.x - g.x) < 20 && Math.abs(b.y - g.y) < 20`). -/
def hit (b : Bullet) (g : Gun) : Bool :=
  decide (jsAbs (b.x - g.x) < 20 ∧ jsAbs (b.y - g.y) < 20)

/-- The qualifying condition the tick loop tests against the blue body:
`b.owner !== room.players.blue && hit(b, room.players.blue)`. -/
def qualBlue (ps : Players) (b : Bullet) : Bool :=
  decide (b.owner ≠ Slot.blue) && hit b ps.blue

/-- The qualifying condition the tick loop tests against the white body:
`b.owner !== room.players.white && hit(b, room.players.white)`. -/
def qualWhite (ps : Players) (b : Bullet) : Bool :=
  decide (b.owner ≠ Slot.white) && hit b ps.white

/-- The two hit checks the tick loop runs for one (already advanced)
bullet, in source order: the blue check may set the winner to white, then
the white check may overwrite it with blue. -/
def checkB (ps : Players) (b : Bullet) (gw : Bool × Option Slot) : Bool × Option Slot :=
  let gw1 := if qualBlue ps b then (true, some Slot.white) else gw
  if qualWhite ps b then (true, some Slot.blue) else gw1

/-- Bullet advancement (`b.x += b.vx; b.y += b.vy`). -/
def advB (b : Bullet) : Bullet := { b with x := b.x + b.vx, y := b.y + b.vy }

/-- The out-of-bounds test of the tick loop
(`b.x < 0 || b.x > WIDTH || b.y < 0 || b.y > HEIGHT`). -/
def oobB (b : Bullet) : Bool :=
  decide (b.x < 0 ∨ b.x > WIDTH ∨ b.y < 0 ∨ b.y > HEIGHT)

/-- The `room.bullets.forEach((b, i) => ...)` loop with its
`splice(i, 1)` call.  `forEach` caches the length of the array before the
first callback (the `fuel` argument), the index `i` always advances by
one, and an index at or beyond the current (possibly shrunk) length is
absent and its callback is skipped.  Consequently when the bullet at `i`
is spliced out, the element shifted into position `i` is not visited
during this pass. -/
def bulletsGo (ps : Players) :
    Nat → Nat → List Bullet → Bool × Option Slot → List Bullet × Bool × Option Slot
  | 0, _, bs, gw => (bs, gw.1, gw.2)
  | fuel + 1, k, bs, gw =>
    match bs.get? k with
    | none => bulletsGo ps fuel (k + 1) bs gw
    | some b =>
      let b' := advB b
      let bs1 := bs.set k b'
      let gw' := checkB ps b' gw
      if oobB b' then bulletsGo ps fuel (k + 1) (bs1.eraseIdx k) gw'
      else bulletsGo ps fuel (k + 1) bs1 gw'

/-- One full pass of the tick loop over a room's bullets. -/
def bulletsPass (ps : Players) (bs : List Bullet) (gw : Bool × Option Slot) :
    List Bullet × Bool × Option Slot :=
  bulletsGo ps bs.length 0 bs gw

/-- One scheduler tick for one room (`setInterval` body of
`src/server.js`): if the game is not over, update both bodies and run the
bullet pass.  `rB`, `rW` are the `Math.hypot` parameters for the two
`update` calls (see `clampStep`). -/
def tick (rB rW : ℚ) (r : Room) : Room :=
  if r.gameOver then r
  else
    let ps : Players := ⟨update rB r.players.blue, update rW r.players.white⟩
    let out := bulletsPass ps r.bullets (r.gameOver, r.winner)
    { r with players := ps, bullets := out.1, gameOver := out.2.1, winner := out.2.2 }

end ServerJs

namespace Part000

/-! Embedding of `src/unnamed/part_000`, the variant with heat/overheat
mechanics, selectable maps and a join countdown.  Its `Gun.update` has no
speed or angular clamp, so it needs no `Math.hypot` parameter. -/

def RECOIL_FORCE : ℚ := 3.2
def BULLET_SPEED : ℚ := 9
def WALL_RESTITUTION : ℚ := 0.85
def ANGULAR_TRANSFER : ℚ := 0.015
def ROTATION_DAMPING : ℚ := 0.992
def LINEAR_DAMPING : ℚ := 0.998
def HEAT_PER_SHOT : ℚ := 1
def MAX_HEAT : ℚ := 6
def COOL_RATE : ℚ := 0.04
def OVERHEAT_COOLDOWN : ℚ := 10000
def WIDTH : ℚ := 420
def HEIGHT : ℚ := 800

/-- One entry of the `MAPS` table. -/
structure GameMap where
  name : String
  gravity : ℚ
  background : String
deriving DecidableEq, Repr

/-- The `MAPS` lookup table; an unknown key yields `undefined`. -/
def MAPS (k : String) : Option GameMap :=
  if k = "zeroG" then some ⟨"Zero-G Arena", 0, "space"⟩
  else if k = "moon" then some ⟨"Moon Base", 0.02, "moon"⟩
  else if k = "heavy" then some ⟨"Heavy Factory", 0.05, "factory"⟩
  else none

/-- The per-player body of `part_000` (`class Gun`), with heat state. -/
structure Gun where
  x : ℚ
  y : ℚ
  vx : ℚ
  vy : ℚ
  angle : ℚ
  av : ℚ
  radius : ℚ
  heat : ℚ
  overheated : Bool
  overheatUntil : ℚ
deriving DecidableEq, Repr

/-- The `Gun` constructor: zero velocities, radius 20, heat 0, not
overheated; `a` is the randomized spawn angle. -/
def mkGun (x y a : ℚ) : Gun :=
  { x := x, y := y, vx := 0, vy := 0, angle := a, av := 0, radius := 20,
    heat := 0, overheated := false, overheatUntil := 0 }

/-- The method `Gun.canShoot()`: lazy overheat recovery.  `now` is `Date.now()`.
Returns the boolean result together with the (possibly mutated) body:
when the cooldown deadline has passed the overheat flag clears and heat
resets to `MAX_HEAT * 0.4`. -/
def canShoot (now : ℚ) (g : Gun) : Bool × Gun :=
  if g.overheated = false then (true, g)
  else if now ≥ g.overheatUntil then
    (true, { g with overheated := false, heat := MAX_HEAT * 0.4 })
  else (false, g)

/-- A projectile of `part_000`; here the owner really is the slot string
passed as `ws.player`. -/
structure Bullet where
  x : ℚ
  y : ℚ
  vx : ℚ
  vy : ℚ
  owner : Slot
deriving DecidableEq, Repr

/-- The method `Gun.shoot(bullets, owner)`: no-op when `canShoot()` is false;
otherwise push a bullet, apply recoil and an angular kick, add
`HEAT_PER_SHOT` of heat, and on reaching `MAX_HEAT` set the overheat
flag and the cooldown deadline `now + OVERHEAT_COOLDOWN`.  `now` is
`Date.now()`, `ca`/`sa` the cosine/sine of the barrel angle, `rnd` is
`Math.random()`. -/
def shoot (now ca sa rnd : ℚ) (owner : Slot) (g : Gun) (bullets : List Bullet) :
    Gun × List Bullet :=
  match canShoot now g with
  | (false, g1) => (g1, bullets)
  | (true, g1) =>
    let bs := bullets ++ [{ x := g1.x + ca * 32, y := g1.y + sa * 32,
                            vx := ca * BULLET_SPEED, vy := sa * BULLET_SPEED,
                            owner := owner }]
    let g2 := { g1 with
                vx := g1.vx - ca * RECOIL_FORCE
                vy := g1.vy - sa * RECOIL_FORCE
                av := g1.av - (rnd - 0.5) * 0.06
                heat := g1.heat + HEAT_PER_SHOT }
    if g2.heat ≥ MAX_HEAT then
      ({ g2 with overheated := true, overheatUntil := now + OVERHEAT_COOLDOWN }, bs)
    else (g2, bs)

/-- The method `Gun.applyWall(nx, ny)`, identical in shape to the `server.js`
version. -/
def applyWall (nx ny : ℚ) (g : Gun) : Gun :=
  let d := g.vx * nx + g.vy * ny
  if d < 0 then
    { g with
      vx := (g.vx - 2 * d * nx) * WALL_RESTITUTION
      vy := (g.vy - 2 * d * ny) * WALL_RESTITUTION
      av := g.av + d * ANGULAR_TRANSFER }
  else g

/-- First lines of `Gun.update(g)`: gravity, position/orientation
integration and damping. -/
def moveStep (grav : ℚ) (g : Gun) : Gun :=
  let g1 := { g with vy := g.vy + grav }
  let g2 := { g1 with x := g1.x + g1.vx, y := g1.y + g1.vy, angle := g1.angle + g1.av }
  { g2 with
    vx := g2.vx * LINEAR_DAMPING
    vy := g2.vy * LINEAR_DAMPING
    av := g2.av * ROTATION_DAMPING }

/-- Heat-decay line of `Gun.update(g)`
(`if (!this.overheated && this.heat > 0) heat = max(0, heat - COOL_RATE)`). -/
def coolStep (g : Gun) : Gun :=
  if g.overheated = false ∧ g.heat > 0 then { g with heat := max 0 (g.heat - COOL_RATE) }
  else g

/-- First wall check of `Gun.update(g)` (`x - radius < 0`). -/
def wallA (g : Gun) : Gun :=
  if g.x - g.radius < 0 then applyWall 1 0 { g with x := g.radius } else g

/-- Second wall check (`x + radius > WIDTH`). -/
def wallB (g : Gun) : Gun :=
  if g.x + g.radius > WIDTH then applyWall (-1) 0 { g with x := WIDTH - g.radius } else g

/-- Third wall check (`y - radius < 0`). -/
def wallC (g : Gun) : Gun :=
  if g.y - g.radius < 0 then applyWall 0 1 { g with y := g.radius } else g

/-- Fourth wall check (`y + radius > HEIGHT`). -/
def wallD (g : Gun) : Gun :=
  if g.y + g.radius > HEIGHT then applyWall 0 (-1) { g with y := HEIGHT - g.radius } else g

/-- The method `Gun.update(g)`: gravity `g` (from the room's map), integration,
damping, heat decay while not overheated, then the four wall checks in
source order.  There is no speed or angular clamp in this variant. -/
def update (grav : ℚ) (g : Gun) : Gun :=
  wallD (wallC (wallB (wallA (coolStep (moveStep grav g)))))

/-- The function `hit(b, g)` of `part_000`: same exclusive box test as `server.js`. -/
def hit (b : Bullet) (g : Gun) : Bool :=
  decide (jsAbs (b.x - g.x) < 20 ∧ jsAbs (b.y - g.y) < 20)

/-- The qualifying condition the `part_000` tick loop tests against the
blue body: `b.owner !== "blue" && hit(b, r.players.blue)`. -/
def qualBlue (blueGun : Gun) (b : Bullet) : Bool :=
  decide (b.owner ≠ Slot.blue) && hit b blueGun

/-- The qualifying condition against the white body:
`b.owner !== "white" && hit(b, r.players.white)`. -/
def qualWhite (whiteGun : Gun) (b : Bullet) : Bool :=
  decide (b.owner ≠ Slot.white) && hit b whiteGun

/-- The two bodies of a `part_000` room. -/
structure Players where
  blue : Gun
  white : Gun
deriving DecidableEq, Repr

/-- A room of `part_000` (`createRoom(mapKey)`s shape): chosen map,
bodies, bullets, at most one connection per slot, and the countdown state
`started`/`startAt`. -/
structure Room where
  map : Option GameMap
  players : Players
  bullets : List Bullet
  clientBlue : Option Nat
  clientWhite : Option Nat
  started : Bool
  startAt : ℚ
deriving DecidableEq, Repr

/-- The function `createRoom(mapKey)`: fresh bodies at the fixed spawn points
(randomized spawn angles `a1`, `a2`), empty bullet list, no clients, not
started. -/
def createRoom (mapKey : String) (a1 a2 : ℚ) : Room :=
  { map := MAPS mapKey
    players := ⟨mkGun 90 (HEIGHT - 160) a1, mkGun (WIDTH - 90) (HEIGHT - 160) a2⟩
    bullets := []
    clientBlue := none
    clientWhite := none
    started := false
    startAt := 0 }

/-- Read `r.players[slot]`. -/
def playersGet (ps : Players) : Slot → Gun
  | Slot.blue => ps.blue
  | Slot.white => ps.white

/-- Write `r.players[slot]`. -/
def playersSet (ps : Players) : Slot → Gun → Players
  | Slot.blue, g => { ps with blue := g }
  | Slot.white, g => { ps with white := g }

/-- The mutable state of the `part_000` server visible to the message
handlers: the `rooms` table and, for every connection (identified by a
number), the `ws.room` / `ws.player` fields.  The source always assigns
the two fields together, so they are modelled as one optional pair. -/
structure St where
  rooms : String → Option Room
  conns : Nat → Option (String × Slot)

/-- The `create` message handler: unconditionally store a fresh room
under the requested identifier, bind the sender as blue, and reply
`joined`.  Any previously stored room under the same name is simply
replaced. -/
def handleCreate (st : St) (c : Nat) (rid mapKey : String) (a1 a2 : ℚ) : St :=
  let fresh := createRoom mapKey a1 a2
  let bound := { fresh with clientBlue := some c }
  { rooms := fun x => if x = rid then some bound else st.rooms x
    conns := fun x => if x = c then some (rid, Slot.blue) else st.conns x }

/-- The `shoot` message handler: look up the sender's room; drop the
message (returning the state unchanged and `false`) when the sender is
unbound, the room is absent, or the room has not started; otherwise
delegate to the bound slot's `Gun.shoot` and return `true`. -/
def handleShoot (st : St) (c : Nat) (now ca sa rnd : ℚ) : St × Bool :=
  match st.conns c with
  | none => (st, false)
  | some (rid, sl) =>
    match st.rooms rid with
    | none => (st, false)
    | some r =>
      if r.started = true then
        let res := shoot now ca sa rnd sl (playersGet r.players sl) r.bullets
        let r' := { r with players := playersSet r.players sl res.1, bullets := res.2 }
        ({ st with rooms := fun x => if x = rid then some r' else st.rooms x }, true)
      else (st, false)

/-- Spec-side harness for stating state invariants of one body: the two
operations the server ever applies to a `Gun` — a fire action
(`Gun.shoot`, with its time, trigonometric and random parameters and the
owner slot) and a per-tick integration (`Gun.update` with the map's
gravity). -/
inductive Op where
  | fire (now ca sa rnd : ℚ) (owner : Slot)
  | step (grav : ℚ)

/-- Apply one operation to a body together with the room's bullet list. -/
def applyOp (s : Gun × List Bullet) : Op → Gun × List Bullet
  | Op.fire now ca sa rnd o => shoot now ca sa rnd o s.1 s.2
  | Op.step grav => (update grav s.1, s.2)

/-- Apply a sequence of operations in order. -/
def applyOps (ops : List Op) (s : Gun × List Bullet) : Gun × List Bullet :=
  ops.foldl applyOp s

end Part000

/-! Concrete states used by counterexamples and witnesses. -/

/-- A `server.js` room in play with two live bullets: the first (owned by
white) is one advancement step short of blue's body, the second (owned by
blue) one step short of white's body; both stay inside the arena. -/
def roomTwoHits : ServerJs.Room :=
  { players := ⟨ServerJs.mkGun 90 520 0, ServerJs.mkGun 330 520 0⟩
    bullets := [⟨90, 538, 0, -9, Slot.white⟩, ⟨330, 538, 0, -9, Slot.blue⟩]
    clientBlue := some 0
    clientWhite := some 1
    gameOver := false
    winner := none
    rematchBlue := false
    rematchWhite := false }

/-- A `server.js` room in play with a single bullet (owned by white) one
advancement step short of blue's body. -/
def roomOneHit : ServerJs.Room :=
  { players := ⟨ServerJs.mkGun 90 520 0, ServerJs.mkGun 330 520 0⟩
    bullets := [⟨90, 538, 0, -9, Slot.white⟩]
    clientBlue := some 0
    clientWhite := some 1
    gameOver := false
    winner := none
    rematchBlue := false
    rematchWhite := false }

/-- A `server.js` room in play whose first bullet leaves the arena on
advancement while the second stays inside, far from both bodies. -/
def roomSkip : ServerJs.Room :=
  { players := ⟨ServerJs.mkGun 90 520 0, ServerJs.mkGun 330 520 0⟩
    bullets := [⟨415, 300, 9, 0, Slot.white⟩, ⟨200, 300, 0, 9, Slot.white⟩]
    clientBlue := some 0
    clientWhite := some 1
    gameOver := false
    winner := none
    rematchBlue := false
    rematchWhite := false }

/-!  ## Claim C8 -/

/-- C8: the hit test (in both source files) reports a hit exactly when
both the horizontal and the vertical center distance are strictly below
the half-width 20; an offset of `(19, 19)` is a hit and an offset of
`(20, 0)` is not. -/
theorem c8_hitbox_boundary :
    (∀ (b : ServerJs.Bullet) (g : ServerJs.Gun),
        ServerJs.hit b g = true ↔ |b.x - g.x| < 20 ∧ |b.y - g.y| < 20)
    ∧ (∀ (g : ServerJs.Gun) (vx vy : ℚ) (o : Slot),
        ServerJs.hit ⟨g.x + 19, g.y + 19, vx, vy, o⟩ g = true)
    ∧ (∀ (g : ServerJs.Gun) (vx vy : ℚ) (o : Slot),
        ServerJs.hit ⟨g.x + 20, g.y, vx, vy, o⟩ g = false)
    ∧ (∀ (b : Part000.Bullet) (g : Part000.Gun),
        Part000.hit b g = true ↔ |b.x - g.x| < 20 ∧ |b.y - g.y| < 20)
    ∧ (∀ (g : Part000.Gun) (vx vy : ℚ) (o : Slot),
        Part000.hit ⟨g.x + 19, g.y + 19, vx, vy, o⟩ g = true)
    ∧ (∀ (g : Part000.Gun) (vx vy : ℚ) (o : Slot),
        Part000.hit ⟨g.x + 20, g.y, vx, vy, o⟩ g = false) := by
  refine ⟨fun b g => by simp [ServerJs.hit, jsAbs_eq_abs], ?_, ?_,
    fun b g => by simp [Part000.hit, jsAbs_eq_abs], ?_, ?_⟩ <;>
    intro g vx vy o <;>
    simp [ServerJs.hit, Part000.hit, jsAbs_eq_abs] <;>
    norm_num

/-!  ## Claim C7 -/

/-- C7: in the tick loop of either source file, the qualifying condition
a bullet is tested with against a body is false whenever the bullet's
owner is that body's slot, for all positions of the bullet and of both
bodies — a projectile never registers a hit against its owner. -/
theorem c7_owner_exclusion :
    (∀ (ps : ServerJs.Players) (b : ServerJs.Bullet),
        b.owner = Slot.blue → ServerJs.qualBlue ps b = false)
    ∧ (∀ (ps : ServerJs.Players) (b : ServerJs.Bullet),
        b.owner = Slot.white → ServerJs.qualWhite ps b = false)
    ∧ (∀ (g : Part000.Gun) (b : Part000.Bullet),
        b.owner = Slot.blue → Part000.qualBlue g b = false)
    ∧ (∀ (g : Part000.Gun) (b : Part000.Bullet),
        b.owner = Slot.white → Part000.qualWhite g b = false) := by
  refine ⟨fun ps b h => ?_, fun ps b h => ?_, fun g b h => ?_, fun g b h => ?_⟩ <;>
    simp [ServerJs.qualBlue, ServerJs.qualWhite, Part000.qualBlue, Part000.qualWhite, h]

/-- Witness for C7: a white-owned bullet sitting exactly on the white
body's center still fails the white-body qualifying check. -/
theorem c7_owner_exclusion_witness :
    ServerJs.qualWhite ⟨ServerJs.mkGun 90 520 0, ServerJs.mkGun 330 520 0⟩
      ⟨330, 520, 0, -9, Slot.white⟩ = false :=
  c7_owner_exclusion.2.1 ⟨ServerJs.mkGun 90 520 0, ServerJs.mkGun 330 520 0⟩
    ⟨330, 520, 0, -9, Slot.white⟩ rfl

/-!  ## Claim C10 -/

/-- C10: the `create` handler of `part_000` stores a freshly created room
under the requested identifier for every prior server state — in
particular when a room with in-progress state already exists under that
identifier, it is discarded, not protected by a rejection.  The freshly
created room has the bodies at the fixed spawn points, no bullets, no
bound connections and is not started; the handler then binds the creator
to the blue slot of the stored copy. -/
theorem c10_create_overwrites (st : Part000.St) (c : Nat) (rid mk : String) (a1 a2 : ℚ) :
    (Part000.handleCreate st c rid mk a1 a2).rooms rid
      = some { Part000.createRoom mk a1 a2 with clientBlue := some c }
    ∧ (Part000.createRoom mk a1 a2).bullets = []
    ∧ (Part000.createRoom mk a1 a2).clientBlue = none
    ∧ (Part000.createRoom mk a1 a2).clientWhite = none
    ∧ (Part000.createRoom mk a1 a2).started = false
    ∧ (Part000.createRoom mk a1 a2).players.blue.x = 90
    ∧ (Part000.createRoom mk a1 a2).players.blue.y = 640
    ∧ (Part000.createRoom mk a1 a2).players.white.x = 330
    ∧ (Part000.createRoom mk a1 a2).players.white.y = 640 := by
  constructor
  · simp [Part000.handleCreate]
  refine ⟨rfl, rfl, rfl, rfl, ?_, ?_, ?_, ?_⟩ <;>
    norm_num [Part000.createRoom, Part000.mkGun, Part000.HEIGHT, Part000.WIDTH]

/-!  ## Claim C6 -/

/-- C6: the `shoot` handler calls the owning body's `Gun.shoot` exactly
when the sender's connection is bound to a room that exists and whose
phase is active (`started = true`); in every other case — sender unbound,
room absent, or room not started (waiting for the second player, counting
down, or ended, which this variant records as `started = false`) — the
message is dropped with the server state unchanged and nothing sent
back. -/
theorem c6_fire_gating (st : Part000.St) (c : Nat) (now ca sa rnd : ℚ) :
    ((Part000.handleShoot st c now ca sa rnd).2 = true ↔
      ∃ rid sl r, st.conns c = some (rid, sl) ∧ st.rooms rid = some r ∧ r.started = true)
    ∧ ((Part000.handleShoot st c now ca sa rnd).2 = false →
        Part000.handleShoot st c now ca sa rnd = (st, false)) := by
  unfold Part000.handleShoot
  rcases hc : st.conns c with _ | ⟨rid, sl⟩
  · simp [hc]
  · rcases hr : st.rooms rid with _ | r
    · simp [hc, hr]
    · by_cases hs : r.started = true
      · simp [hc, hr, hs]
      · simp [hc, hr, hs]

/-- A started `part_000` room with both slots bound. -/
def roomStartedEx : Part000.Room :=
  { Part000.createRoom "moon" 0 0 with
    started := true, clientBlue := some 0, clientWhite := some 1 }

/-- A server state holding `roomStartedEx` under the name `"R1"`, with
connection `0` bound to its blue slot. -/
def stEx : Part000.St :=
  { rooms := fun x => if x = "R1" then some roomStartedEx else none
    conns := fun n => if n = 0 then some ("R1", Slot.blue) else none }

/-- The empty server state: no rooms, no bound connections. -/
def stIdle : Part000.St :=
  { rooms := fun _ => none, conns := fun _ => none }

/-- Witness for C6: a bound sender in a started room fires; an unbound
sender's message leaves the state untouched. -/
theorem c6_fire_gating_witness :
    (Part000.handleShoot stEx 0 0 1 0 (1/2)).2 = true
    ∧ Part000.handleShoot stIdle 5 0 1 0 (1/2) = (stIdle, false) :=
  ⟨(c6_fire_gating stEx 0 0 1 0 (1/2)).1.mpr
      ⟨"R1", Slot.blue, roomStartedEx, rfl, rfl, rfl⟩,
    (c6_fire_gating stIdle 5 0 1 0 (1/2)).2 rfl⟩

/-!  ## Claim C1 -/

/-- Counterexample for C1: in `roomTwoHits` the first bullet in
iteration order scores a qualifying hit on the blue body (third
conjunct), so first-hit-wins would record winner white and process no
further collisions; but the tick keeps processing, the second bullet's
hit on the white body overwrites the outcome, and the recorded winner is
blue. -/
theorem c1_counterexample :
    (ServerJs.tick 0 0 roomTwoHits).gameOver = true
    ∧ (ServerJs.tick 0 0 roomTwoHits).winner = some Slot.blue
    ∧ ServerJs.qualBlue
        ⟨ServerJs.update 0 roomTwoHits.players.blue,
          ServerJs.update 0 roomTwoHits.players.white⟩
        (ServerJs.advB ⟨90, 538, 0, -9, Slot.white⟩) = true := by
  norm_num [ServerJs.tick, ServerJs.bulletsPass, ServerJs.bulletsGo, ServerJs.checkB,
    ServerJs.qualBlue, ServerJs.qualWhite, ServerJs.hit, ServerJs.advB, ServerJs.oobB,
    ServerJs.update, ServerJs.wallsStep, ServerJs.wall1, ServerJs.wall2, ServerJs.wall3,
    ServerJs.wall4, ServerJs.clampStep, ServerJs.speedClamp, ServerJs.avClamp,
    ServerJs.dampStep, ServerJs.integrateStep,
    ServerJs.gravityStep, ServerJs.applyWallCollision, ServerJs.speedSq, ServerJs.mkGun,
    roomTwoHits, jsAbs, ServerJs.GRAVITY, ServerJs.LINEAR_DAMPING, ServerJs.ROTATION_DAMPING,
    ServerJs.MAX_SPEED, ServerJs.MAX_ANGULAR_SPEED, ServerJs.WIDTH, ServerJs.HEIGHT,
    ServerJs.WALL_RESTITUTION, ServerJs.ANGULAR_TRANSFER, List.set] <;> decide

/-- C1 amended: the tick's bullet pass iterates in a fixed, stable order
(bullet index order, the blue-body check before the white-body check for
each bullet) and once the game-over flag is set it stays set; but the
pass does not short-circuit after the first detected hit — every visited
bullet is still tested and the recorded winner comes from the last
qualifying hit in that order.  With an earlier qualifying hit on the blue
body (which alone would record winner white, first conjunct) and a later
qualifying hit on the white body, the pass ends with winner blue. -/
theorem c1_last_hit_wins (ps : ServerJs.Players) (b1 b2 : ServerJs.Bullet)
    (g0 : Bool) (w0 : Option Slot)
    (h1 : ServerJs.qualBlue ps (ServerJs.advB b1) = true)
    (h1w : ServerJs.qualWhite ps (ServerJs.advB b1) = false)
    (hin : ServerJs.oobB (ServerJs.advB b1) = false)
    (h2 : ServerJs.qualWhite ps (ServerJs.advB b2) = true) :
    ServerJs.checkB ps (ServerJs.advB b1) (g0, w0) = (true, some Slot.white)
    ∧ (ServerJs.bulletsPass ps [b1, b2] (g0, w0)).2 = (true, some Slot.blue) := by
  constructor
  · simp [ServerJs.checkB, h1, h1w]
  · show (ServerJs.bulletsGo ps 2 0 [b1, b2] (g0, w0)).2 = (true, some Slot.blue)
    cases ho : ServerJs.oobB (ServerJs.advB b2) <;>
      simp [ServerJs.bulletsGo, ServerJs.checkB, h1, h1w, hin, h2, ho, List.set]

/-- Witness for C1's amended theorem at concrete bullets and bodies. -/
theorem c1_last_hit_wins_witness :
    ServerJs.checkB ⟨ServerJs.mkGun 100 100 0, ServerJs.mkGun 300 100 0⟩
        (ServerJs.advB ⟨100, 91, 0, 9, Slot.white⟩) (false, none) = (true, some Slot.white)
    ∧ (ServerJs.bulletsPass ⟨ServerJs.mkGun 100 100 0, ServerJs.mkGun 300 100 0⟩
        [⟨100, 91, 0, 9, Slot.white⟩, ⟨300, 91, 0, 9, Slot.blue⟩] (false, none)).2
      = (true, some Slot.blue) :=
  c1_last_hit_wins ⟨ServerJs.mkGun 100 100 0, ServerJs.mkGun 300 100 0⟩
    ⟨100, 91, 0, 9, Slot.white⟩ ⟨300, 91, 0, 9, Slot.blue⟩ false none
    (by norm_num [ServerJs.qualBlue, ServerJs.hit, ServerJs.advB, ServerJs.mkGun, jsAbs] <;>
      decide)
    (by norm_num [ServerJs.qualWhite, ServerJs.hit, ServerJs.advB, ServerJs.mkGun, jsAbs] <;>
      decide)
    (by norm_num [ServerJs.oobB, ServerJs.advB, ServerJs.WIDTH, ServerJs.HEIGHT])
    (by norm_num [ServerJs.qualWhite, ServerJs.hit, ServerJs.advB, ServerJs.mkGun, jsAbs] <;>
      decide)

/-!  ## Claim C5 -/

/-- Counterexample for C5: one tick of `roomOneHit` scores a hit and
moves the room to the ended phase (`gameOver = true`), yet the bullet
list is not empty — the hitting projectile persists into the ended
phase. -/
theorem c5_counterexample :
    (ServerJs.tick 0 0 roomOneHit).gameOver = true
    ∧ (ServerJs.tick 0 0 roomOneHit).bullets ≠ [] := by
  norm_num [ServerJs.tick, ServerJs.bulletsPass, ServerJs.bulletsGo, ServerJs.checkB,
    ServerJs.qualBlue, ServerJs.qualWhite, ServerJs.hit, ServerJs.advB, ServerJs.oobB,
    ServerJs.update, ServerJs.wallsStep, ServerJs.wall1, ServerJs.wall2, ServerJs.wall3,
    ServerJs.wall4, ServerJs.clampStep, ServerJs.speedClamp, ServerJs.avClamp,
    ServerJs.dampStep, ServerJs.integrateStep,
    ServerJs.gravityStep, ServerJs.applyWallCollision, ServerJs.speedSq, ServerJs.mkGun,
    roomOneHit, jsAbs, ServerJs.GRAVITY, ServerJs.LINEAR_DAMPING, ServerJs.ROTATION_DAMPING,
    ServerJs.MAX_SPEED, ServerJs.MAX_ANGULAR_SPEED, ServerJs.WIDTH, ServerJs.HEIGHT,
    ServerJs.WALL_RESTITUTION, ServerJs.ANGULAR_TRANSFER, List.set] <;> decide

/-- C5 amended: a room has no projectiles when created (the waiting
phase) and none immediately after a reset; but a projectile may persist
into the ended phase after a hit (see the counterexample) — it is only
ever removed by out-of-bounds pruning or by `resetRoom`. -/
theorem c5_cleared_on_create_and_reset (a1 a2 : ℚ) (r : ServerJs.Room) :
    (ServerJs.createRoom a1 a2).bullets = [] ∧ (ServerJs.resetRoom a1 a2 r).bullets = [] :=
  ⟨rfl, rfl⟩

/-!  ## Claim C9 -/

/-- Reading an appended list just past its prefix. -/
theorem get?_append_self {α : Type} (pre : List α) (l2 : List α) :
    (pre ++ l2).get? pre.length = l2.get? 0 := by
  induction pre with
  | nil => rfl
  | cons a t ih => simpa using ih

/-- Writing to an appended list just past its prefix. -/
theorem set_append_self {α : Type} (pre : List α) (b : α) (suf : List α) (v : α) :
    (pre ++ b :: suf).set pre.length v = pre ++ v :: suf := by
  induction pre with
  | nil => rfl
  | cons a t ih => simpa using ih

/-- When no bullet of the unvisited suffix goes out of bounds on
advancement, the bullet pass advances every remaining bullet exactly once
and removes none. -/
theorem bulletsGo_all_inbounds (ps : ServerJs.Players) :
    ∀ (suf pre : List ServerJs.Bullet) (gw : Bool × Option Slot),
      (∀ b ∈ suf, ServerJs.oobB (ServerJs.advB b) = false) →
      (ServerJs.bulletsGo ps suf.length pre.length (pre ++ suf) gw).1
        = pre ++ suf.map ServerJs.advB := by
  intro suf
  induction suf with
  | nil => intro pre gw _; simp [ServerJs.bulletsGo]
  | cons b suf ih =>
    intro pre gw h
    have hb : ServerJs.oobB (ServerJs.advB b) = false := h b (by simp)
    have hs : ∀ x ∈ suf, ServerJs.oobB (ServerJs.advB x) = false :=
      fun x hx => h x (by simp [hx])
    show (ServerJs.bulletsGo ps (suf.length + 1) pre.length (pre ++ b :: suf) gw).1
        = pre ++ (b :: suf).map ServerJs.advB
    rw [ServerJs.bulletsGo, get?_append_self]
    simp only [List.get?, set_append_self, hb, if_neg, Bool.false_eq_true, not_false_iff,
      ite_false]
    have hlen : pre.length + 1 = (pre ++ [ServerJs.advB b]).length := by simp
    have happ : pre ++ ServerJs.advB b :: suf = (pre ++ [ServerJs.advB b]) ++ suf := by simp
    rw [hlen, happ, ih (pre ++ [ServerJs.advB b])
      (ServerJs.checkB ps (ServerJs.advB b) gw) hs]
    simp

/-- C9 amended: per tick, if no projectile's advanced position leaves the
arena then every projectile is retained and advanced exactly once (first
conjunct); but when a projectile does leave the arena it is removed and
the projectile immediately after it in the array is skipped for that
tick — retained without being advanced or checked (second conjunct, for
a two-bullet room: the surviving bullet is returned unmodified). -/
theorem c9_advance_and_prune (ps : ServerJs.Players) (bs : List ServerJs.Bullet)
    (gw : Bool × Option Slot)
    (h : ∀ b ∈ bs, ServerJs.oobB (ServerJs.advB b) = false) :
    (ServerJs.bulletsPass ps bs gw).1 = bs.map ServerJs.advB
    ∧ ∀ (b1 b2 : ServerJs.Bullet) (gw2 : Bool × Option Slot),
        ServerJs.oobB (ServerJs.advB b1) = true →
        (ServerJs.bulletsPass ps [b1, b2] gw2).1 = [b2] := by
  constructor
  · simpa using bulletsGo_all_inbounds ps bs [] gw h
  · intro b1 b2 gw2 ho
    simp [ServerJs.bulletsPass, ServerJs.bulletsGo, ho, List.set]

/-- Witness for C9's amended theorem: a two-bullet all-in-bounds pass
advances both bullets, and a pass whose first bullet exits the arena
returns the second bullet untouched. -/
theorem c9_advance_and_prune_witness :
    (ServerJs.bulletsPass ⟨ServerJs.mkGun 90 520 0, ServerJs.mkGun 330 520 0⟩
        [⟨10, 10, 1, 1, Slot.blue⟩, ⟨50, 50, 0, -9, Slot.white⟩] (false, none)).1
      = [⟨11, 11, 1, 1, Slot.blue⟩, ⟨50, 41, 0, -9, Slot.white⟩]
    ∧ (ServerJs.bulletsPass ⟨ServerJs.mkGun 90 520 0, ServerJs.mkGun 330 520 0⟩
        [⟨415, 300, 9, 0, Slot.white⟩, ⟨200, 300, 0, 9, Slot.white⟩] (false, none)).1
      = [⟨200, 300, 0, 9, Slot.white⟩] := by
  have hall := (c9_advance_and_prune ⟨ServerJs.mkGun 90 520 0, ServerJs.mkGun 330 520 0⟩
    [⟨10, 10, 1, 1, Slot.blue⟩, ⟨50, 50, 0, -9, Slot.white⟩] (false, none)
    (by intro b hb
        simp only [List.mem_cons, List.not_mem_nil, or_false] at hb
        rcases hb with rfl | rfl <;>
          norm_num [ServerJs.oobB, ServerJs.advB, ServerJs.WIDTH, ServerJs.HEIGHT]))
  refine ⟨?_, ?_⟩
  · rw [hall.1]
    norm_num [ServerJs.advB]
  · exact hall.2 ⟨415, 300, 9, 0, Slot.white⟩ ⟨200, 300, 0, 9, Slot.white⟩ (false, none)
      (by norm_num [ServerJs.oobB, ServerJs.advB, ServerJs.WIDTH, ServerJs.HEIGHT])

/-- Counterexample for C9: in `roomSkip` the first bullet is removed as
out of bounds, and the second bullet — in bounds both before and after
advancement (third conjunct) — is returned unadvanced (first and second
conjuncts), so an in-bounds projectile was retained without being
advanced during that tick. -/
theorem c9_counterexample :
    (ServerJs.tick 0 0 roomSkip).bullets = [⟨200, 300, 0, 9, Slot.white⟩]
    ∧ ServerJs.advB ⟨200, 300, 0, 9, Slot.white⟩ ≠ ⟨200, 300, 0, 9, Slot.white⟩
    ∧ ServerJs.oobB (ServerJs.advB ⟨200, 300, 0, 9, Slot.white⟩) = false := by
  norm_num [ServerJs.tick, ServerJs.bulletsPass, ServerJs.bulletsGo, ServerJs.checkB,
    ServerJs.qualBlue, ServerJs.qualWhite, ServerJs.hit, ServerJs.advB, ServerJs.oobB,
    ServerJs.update, ServerJs.wallsStep, ServerJs.wall1, ServerJs.wall2, ServerJs.wall3,
    ServerJs.wall4, ServerJs.clampStep, ServerJs.speedClamp, ServerJs.avClamp,
    ServerJs.dampStep, ServerJs.integrateStep,
    ServerJs.gravityStep, ServerJs.applyWallCollision, ServerJs.speedSq, ServerJs.mkGun,
    roomSkip, jsAbs, ServerJs.GRAVITY, ServerJs.LINEAR_DAMPING, ServerJs.ROTATION_DAMPING,
    ServerJs.MAX_SPEED, ServerJs.MAX_ANGULAR_SPEED, ServerJs.WIDTH, ServerJs.HEIGHT,
    ServerJs.WALL_RESTITUTION, ServerJs.ANGULAR_TRANSFER, List.set]

/-!  ## Claim C3 -/

/-- The inductive heat invariant of one `part_000` body: heat is
nonnegative, below `MAX_HEAT` while not overheated and below
`MAX_HEAT + HEAT_PER_SHOT` while overheated. -/
def heatInv (g : Part000.Gun) : Prop :=
  0 ≤ g.heat
  ∧ (g.overheated = false → g.heat < Part000.MAX_HEAT)
  ∧ (g.overheated = true → g.heat < Part000.MAX_HEAT + Part000.HEAT_PER_SHOT)

/-- The operation `canShoot` preserves the heat invariant. -/
theorem heatInv_canShoot (now : ℚ) (g : Part000.Gun) (h : heatInv g) :
    heatInv (Part000.canShoot now g).2 := by
  unfold Part000.canShoot
  split_ifs
  · exact h
  · exact ⟨by norm_num [Part000.MAX_HEAT], fun _ => by norm_num [Part000.MAX_HEAT],
      fun hh => by simp at hh⟩
  · exact h

/-- When `canShoot` answers true, the body it returns is not
overheated. -/
theorem canShoot_true_not_overheated (now : ℚ) (g : Part000.Gun) :
    (Part000.canShoot now g).1 = true → (Part000.canShoot now g).2.overheated = false := by
  unfold Part000.canShoot
  split_ifs with h1 h2
  · intro _; exact h1
  · intro _; rfl
  · intro hh; simp at hh

/-- The operation `shoot` preserves the heat invariant. -/
theorem heatInv_shoot (now ca sa rnd : ℚ) (o : Slot) (g : Part000.Gun)
    (bs : List Part000.Bullet) (h : heatInv g) :
    heatInv (Part000.shoot now ca sa rnd o g bs).1 := by
  have hc := heatInv_canShoot now g h
  have hov := canShoot_true_not_overheated now g
  rcases hcs : Part000.canShoot now g with ⟨ok, g1⟩
  rw [hcs] at hc hov
  cases ok
  · simpa [Part000.shoot, hcs] using hc
  · have hovf : g1.overheated = false := hov rfl
    have hlt : g1.heat < Part000.MAX_HEAT := hc.2.1 hovf
    have h0 : 0 ≤ g1.heat := hc.1
    have hps : (0:ℚ) ≤ Part000.HEAT_PER_SHOT := by norm_num [Part000.HEAT_PER_SHOT]
    by_cases hge : g1.heat + Part000.HEAT_PER_SHOT ≥ Part000.MAX_HEAT
    · simp only [Part000.shoot, hcs, hge, if_pos]
      exact ⟨by linarith, fun hh => by simp at hh,
        fun _ => add_lt_add_right hlt Part000.HEAT_PER_SHOT⟩
    · simp only [Part000.shoot, hcs, hge, if_neg, not_false_iff]
      exact ⟨by linarith, fun _ => lt_of_not_ge hge, fun hh => by rw [hovf] at hh; simp at hh⟩

/-- The response `applyWall` does not touch heat state, so it preserves the heat
invariant. -/
theorem heatInv_applyWall (nx ny : ℚ) (g : Part000.Gun) (h : heatInv g) :
    heatInv (Part000.applyWall nx ny g) := by
  unfold Part000.applyWall
  dsimp only
  split
  · exact h
  · exact h

/-- The operation `update` preserves the heat invariant: decay keeps heat nonnegative
and never raises it, and wall responses do not touch it. -/
theorem heatInv_update (grav : ℚ) (g : Part000.Gun) (h : heatInv g) :
    heatInv (Part000.update grav g) := by
  have hmv : heatInv (Part000.moveStep grav g) := h
  have hcool : heatInv (Part000.coolStep (Part000.moveStep grav g)) := by
    set g3 := Part000.moveStep grav g with hg3
    unfold Part000.coolStep
    split_ifs with hcond
    · rcases hmv with ⟨h0, hf, _⟩
      refine ⟨le_max_left 0 _, fun _ => ?_, fun hh => ?_⟩
      · have : max 0 (g3.heat - Part000.COOL_RATE) ≤ g3.heat :=
          max_le h0 (by norm_num [Part000.COOL_RATE])
        exact lt_of_le_of_lt this (hf hcond.1)
      · rw [hcond.1] at hh; simp at hh
    · exact hmv
  unfold Part000.update Part000.wallD Part000.wallC Part000.wallB Part000.wallA
  split_ifs <;>
    first
      | exact hcool
      | (apply heatInv_applyWall; exact hcool)
      | (apply heatInv_applyWall
         first
           | exact hcool
           | (apply heatInv_applyWall; exact hcool)
           | (apply heatInv_applyWall
              first
                | exact hcool
                | (apply heatInv_applyWall; exact hcool)
                | (apply heatInv_applyWall
                   first
                     | exact hcool
                     | (apply heatInv_applyWall; exact hcool))))

/-- One server operation on a body preserves the heat invariant. -/
theorem heatInv_applyOp (s : Part000.Gun × List Part000.Bullet) (op : Part000.Op)
    (h : heatInv s.1) : heatInv (Part000.applyOp s op).1 := by
  cases op with
  | fire now ca sa rnd o => exact heatInv_shoot now ca sa rnd o s.1 s.2 h
  | step grav => exact heatInv_update grav s.1 h

/-- Every sequence of server operations preserves the heat invariant. -/
theorem heatInv_applyOps (ops : List Part000.Op) :
    ∀ s : Part000.Gun × List Part000.Bullet,
      heatInv s.1 → heatInv (Part000.applyOps ops s).1 := by
  induction ops with
  | nil => intro s h; exact h
  | cons op ops ih =>
    intro s h
    rw [Part000.applyOps, List.foldl_cons]
    exact ih (Part000.applyOp s op) (heatInv_applyOp s op h)

/-- C3 amended: along every sequence of fire and integration operations
starting from a freshly constructed body, heat stays within
`[0, MAX_HEAT + HEAT_PER_SHOT)`: it never drops below zero, but it can
exceed `MAX_HEAT` by strictly less than one shot's worth of heat,
because `canShoot` consults only the overheat flag and the flag is only
raised after the increment that crossed the threshold. -/
theorem c3_heat_bounds (x y a : ℚ) (ops : List Part000.Op) :
    0 ≤ ((Part000.applyOps ops (Part000.mkGun x y a, [])).1).heat
    ∧ ((Part000.applyOps ops (Part000.mkGun x y a, [])).1).heat
        < Part000.MAX_HEAT + Part000.HEAT_PER_SHOT := by
  have hinit : heatInv (Part000.mkGun x y a) :=
    ⟨le_refl 0, fun _ => by norm_num [Part000.mkGun, Part000.MAX_HEAT],
      fun hh => by simp [Part000.mkGun] at hh⟩
  have h := heatInv_applyOps ops (Part000.mkGun x y a, []) hinit
  rcases h with ⟨h0, hf, ht⟩
  refine ⟨h0, ?_⟩
  cases hov : ((Part000.applyOps ops (Part000.mkGun x y a, [])).1).overheated
  · refine lt_trans (hf hov) ?_
    norm_num [Part000.MAX_HEAT, Part000.HEAT_PER_SHOT]
  · exact ht hov

/-- The operation sequence that drives heat above `MAX_HEAT`: five
shots, one integration step (in the zero-gravity map) that decays heat
to 4.96, then two further shots reaching 6.96. -/
def opsOverheat : List Part000.Op :=
  [Part000.Op.fire 0 1 0 (1/2) Slot.blue,
   Part000.Op.fire 0 1 0 (1/2) Slot.blue,
   Part000.Op.fire 0 1 0 (1/2) Slot.blue,
   Part000.Op.fire 0 1 0 (1/2) Slot.blue,
   Part000.Op.fire 0 1 0 (1/2) Slot.blue,
   Part000.Op.step 0,
   Part000.Op.fire 0 1 0 (1/2) Slot.blue,
   Part000.Op.fire 0 1 0 (1/2) Slot.blue]

/-- Counterexample for C3: after `opsOverheat` the body's heat is
`6.96 = 174/25`, strictly greater than `MAX_HEAT = 6`, refuting the
claimed upper bound `heat ≤ MAX_HEAT`. -/
theorem c3_counterexample :
    ((Part000.applyOps opsOverheat (Part000.mkGun 90 640 0, [])).1).heat = 174 / 25
    ∧ ¬ ((Part000.applyOps opsOverheat (Part000.mkGun 90 640 0, [])).1).heat
        ≤ Part000.MAX_HEAT := by
  norm_num [opsOverheat, Part000.applyOps, Part000.applyOp, Part000.shoot, Part000.canShoot,
    Part000.update, Part000.moveStep, Part000.coolStep, Part000.wallA, Part000.wallB,
    Part000.wallC, Part000.wallD, Part000.applyWall, Part000.mkGun, Part000.MAX_HEAT,
    Part000.HEAT_PER_SHOT, Part000.COOL_RATE, Part000.OVERHEAT_COOLDOWN, Part000.RECOIL_FORCE,
    Part000.BULLET_SPEED, Part000.LINEAR_DAMPING, Part000.ROTATION_DAMPING,
    Part000.WALL_RESTITUTION, Part000.ANGULAR_TRANSFER, Part000.WIDTH, Part000.HEIGHT]

/-!  ## Claim C4 -/

/-- C4: starting from a body with heat 0 and the overheat flag clear,
six (`MAX_HEAT`, at one `HEAT_PER_SHOT` each) consecutive fire actions —
at arbitrary times and with arbitrary trigonometric/random parameters —
leave the body overheated with heat exactly `MAX_HEAT` and expiry
timestamp `n6 + OVERHEAT_COOLDOWN` (the time of the last shot plus the
fixed cooldown); `canShoot` then answers false at every time strictly
before that timestamp, and at any time at or after it answers true,
clears the flag and sets heat to exactly `0.4 × MAX_HEAT`. -/
theorem c4_overheat_cycle (g0 : Part000.Gun) (bs0 : List Part000.Bullet)
    (h0 : g0.heat = 0) (hov : g0.overheated = false)
    (n1 n2 n3 n4 n5 n6 ca1 ca2 ca3 ca4 ca5 ca6 : ℚ)
    (sa1 sa2 sa3 sa4 sa5 sa6 rd1 rd2 rd3 rd4 rd5 rd6 : ℚ)
    (o1 o2 o3 o4 o5 o6 : Slot) (gf : Part000.Gun)
    (hgf : gf = (Part000.applyOps
      [Part000.Op.fire n1 ca1 sa1 rd1 o1, Part000.Op.fire n2 ca2 sa2 rd2 o2,
       Part000.Op.fire n3 ca3 sa3 rd3 o3, Part000.Op.fire n4 ca4 sa4 rd4 o4,
       Part000.Op.fire n5 ca5 sa5 rd5 o5, Part000.Op.fire n6 ca6 sa6 rd6 o6]
      (g0, bs0)).1) :
    gf.overheated = true
    ∧ gf.overheatUntil = n6 + Part000.OVERHEAT_COOLDOWN
    ∧ gf.heat = Part000.MAX_HEAT
    ∧ (∀ t : ℚ, t < gf.overheatUntil → (Part000.canShoot t gf).1 = false)
    ∧ (∀ t : ℚ, gf.overheatUntil ≤ t →
        (Part000.canShoot t gf).1 = true
        ∧ (Part000.canShoot t gf).2.overheated = false
        ∧ (Part000.canShoot t gf).2.heat = 0.4 * Part000.MAX_HEAT) := by
  subst hgf
  have key : ((Part000.applyOps
      [Part000.Op.fire n1 ca1 sa1 rd1 o1, Part000.Op.fire n2 ca2 sa2 rd2 o2,
       Part000.Op.fire n3 ca3 sa3 rd3 o3, Part000.Op.fire n4 ca4 sa4 rd4 o4,
       Part000.Op.fire n5 ca5 sa5 rd5 o5, Part000.Op.fire n6 ca6 sa6 rd6 o6]
      (g0, bs0)).1).overheated = true
      ∧ ((Part000.applyOps
      [Part000.Op.fire n1 ca1 sa1 rd1 o1, Part000.Op.fire n2 ca2 sa2 rd2 o2,
       Part000.Op.fire n3 ca3 sa3 rd3 o3, Part000.Op.fire n4 ca4 sa4 rd4 o4,
       Part000.Op.fire n5 ca5 sa5 rd5 o5, Part000.Op.fire n6 ca6 sa6 rd6 o6]
      (g0, bs0)).1).overheatUntil = n6 + Part000.OVERHEAT_COOLDOWN
      ∧ ((Part000.applyOps
      [Part000.Op.fire n1 ca1 sa1 rd1 o1, Part000.Op.fire n2 ca2 sa2 rd2 o2,
       Part000.Op.fire n3 ca3 sa3 rd3 o3, Part000.Op.fire n4 ca4 sa4 rd4 o4,
       Part000.Op.fire n5 ca5 sa5 rd5 o5, Part000.Op.fire n6 ca6 sa6 rd6 o6]
      (g0, bs0)).1).heat = Part000.MAX_HEAT := by
    norm_num [Part000.applyOps, Part000.applyOp, Part000.shoot, Part000.canShoot, h0, hov,
      Part000.HEAT_PER_SHOT, Part000.MAX_HEAT]
  obtain ⟨hovt, huntil, hheat⟩ := key
  refine ⟨hovt, huntil, hheat, ?_, ?_⟩
  · intro t ht
    simp [Part000.canShoot, hovt, not_le.mpr ht]
  · intro t ht
    refine ⟨?_, ?_, ?_⟩ <;>
      simp [Part000.canShoot, hovt, ge_iff_le, ht, Part000.MAX_HEAT] <;> norm_num

/-- The body obtained by six concrete consecutive shots (all at time 0)
from a fresh body. -/
def gunSixShots : Part000.Gun :=
  (Part000.applyOps
    [Part000.Op.fire 0 1 0 (1/2) Slot.blue, Part000.Op.fire 0 1 0 (1/2) Slot.blue,
     Part000.Op.fire 0 1 0 (1/2) Slot.blue, Part000.Op.fire 0 1 0 (1/2) Slot.blue,
     Part000.Op.fire 0 1 0 (1/2) Slot.blue, Part000.Op.fire 0 1 0 (1/2) Slot.blue]
    (Part000.mkGun 90 640 0, [])).1

/-- Witness for C4 at concrete parameters: after six shots at time 0 the
body is overheated, `canShoot` refuses at time 5000 (before expiry) and
accepts at time 10000 (the expiry), resetting heat to
`0.4 × MAX_HEAT`. -/
theorem c4_overheat_cycle_witness :
    gunSixShots.overheated = true
    ∧ (Part000.canShoot 5000 gunSixShots).1 = false
    ∧ (Part000.canShoot 10000 gunSixShots).1 = true
    ∧ (Part000.canShoot 10000 gunSixShots).2.heat = 0.4 * Part000.MAX_HEAT := by
  have T := c4_overheat_cycle (Part000.mkGun 90 640 0) [] rfl rfl
    0 0 0 0 0 0 1 1 1 1 1 1 0 0 0 0 0 0 (1/2) (1/2) (1/2) (1/2) (1/2) (1/2)
    Slot.blue Slot.blue Slot.blue Slot.blue Slot.blue Slot.blue gunSixShots rfl
  refine ⟨T.1, T.2.2.2.1 5000 ?_, (T.2.2.2.2 10000 ?_).1, (T.2.2.2.2 10000 ?_).2.2⟩ <;>
    rw [T.2.1] <;> norm_num [Part000.OVERHEAT_COOLDOWN]

/-!  ## Claim C2 -/

/-- The angular clamp never touches the linear velocity. -/
theorem speedSq_avClamp (g : ServerJs.Gun) :
    ServerJs.speedSq (ServerJs.avClamp g) = ServerJs.speedSq g := by
  unfold ServerJs.avClamp
  dsimp only
  split_ifs <;> rfl

/-- After the angular clamp the angular speed is within the configured
maximum. -/
theorem abs_av_avClamp (g : ServerJs.Gun) :
    |(ServerJs.avClamp g).av| ≤ ServerJs.MAX_ANGULAR_SPEED := by
  unfold ServerJs.avClamp
  dsimp only
  split_ifs with h1 h2 h3 <;>
    simp only [ServerJs.MAX_ANGULAR_SPEED] at * <;>
    rw [abs_le] <;>
    constructor <;>
    norm_num at * <;>
    linarith

/-- The speed clamp never touches the angular velocity. -/
theorem av_speedClamp (r : ℚ) (g : ServerJs.Gun) :
    (ServerJs.speedClamp r g).av = g.av := by
  unfold ServerJs.speedClamp
  split_ifs <;> rfl

/-- The speed clamp caps the squared linear speed at `MAX_SPEED ^ 2`,
given that `r` really is the hypotenuse of the velocity at that point. -/
theorem speedSq_speedClamp_le (r : ℚ) (g : ServerJs.Gun) (hr0 : 0 ≤ r)
    (hr : r ^ 2 = ServerJs.speedSq g) :
    ServerJs.speedSq (ServerJs.speedClamp r g) ≤ ServerJs.MAX_SPEED ^ 2 := by
  have hsum : g.vx ^ 2 + g.vy ^ 2 = r ^ 2 := by rw [hr]; rfl
  unfold ServerJs.speedClamp
  split_ifs with h1
  · simp only [ServerJs.speedSq, ServerJs.MAX_SPEED] at h1 ⊢
    have hrne : r ≠ 0 := by
      intro h0
      rw [h0] at hsum
      norm_num at h1
      nlinarith [h1, hsum]
    have hexact : (g.vx * (ServerJs.MAX_SPEED / r)) ^ 2
        + (g.vy * (ServerJs.MAX_SPEED / r)) ^ 2 = (ServerJs.MAX_SPEED : ℚ) ^ 2 := by
      simp only [ServerJs.MAX_SPEED]
      field_simp
      linear_combination ((15 / 2 : ℚ) ^ 2) * hsum
    simp only [ServerJs.MAX_SPEED] at hexact
    linarith [hexact]
  · exact le_of_not_lt h1

/-- A wall collision response never increases the squared linear speed:
reflection about a unit normal preserves it and the restitution factor
shrinks it. -/
theorem speedSq_applyWallCollision_le (nx ny : ℚ) (hn : nx ^ 2 + ny ^ 2 = 1)
    (g : ServerJs.Gun) :
    ServerJs.speedSq (ServerJs.applyWallCollision nx ny g) ≤ ServerJs.speedSq g := by
  unfold ServerJs.applyWallCollision
  dsimp only
  split_ifs with hd
  · have hid : (g.vx - 2 * (g.vx * nx + g.vy * ny) * nx) ^ 2
        + (g.vy - 2 * (g.vx * nx + g.vy * ny) * ny) ^ 2 = g.vx ^ 2 + g.vy ^ 2 := by
      linear_combination (4 * (g.vx * nx + g.vy * ny) ^ 2) * hn
    simp only [ServerJs.speedSq, ServerJs.WALL_RESTITUTION]
    nlinarith [hid, sq_nonneg g.vx, sq_nonneg g.vy]
  · exact le_refl _

/-- A wall collision response changes the angular velocity by at most
`MAX_SPEED * ANGULAR_TRANSFER`, provided the linear speed is within the
clamp bound. -/
theorem abs_av_applyWallCollision_le (nx ny : ℚ) (hn : nx ^ 2 + ny ^ 2 = 1)
    (g : ServerJs.Gun) (A : ℚ)
    (hs : ServerJs.speedSq g ≤ ServerJs.MAX_SPEED ^ 2) (ha : |g.av| ≤ A) :
    |(ServerJs.applyWallCollision nx ny g).av|
      ≤ A + ServerJs.MAX_SPEED * ServerJs.ANGULAR_TRANSFER := by
  simp only [ServerJs.speedSq, ServerJs.MAX_SPEED, ServerJs.ANGULAR_TRANSFER] at hs ⊢
  unfold ServerJs.applyWallCollision
  dsimp only
  rw [abs_le] at ha
  split_ifs with hd
  · have lag : (g.vx * nx + g.vy * ny) ^ 2 + (g.vx * ny - g.vy * nx) ^ 2
        = (g.vx ^ 2 + g.vy ^ 2) * (nx ^ 2 + ny ^ 2) := by ring
    rw [hn, mul_one] at lag
    have hd2 : (g.vx * nx + g.vy * ny) ^ 2 ≤ (15 / 2 : ℚ) ^ 2 := by
      nlinarith [sq_nonneg (g.vx * ny - g.vy * nx)]
    have hdlow : -(15 / 2 : ℚ) ≤ g.vx * nx + g.vy * ny := by
      nlinarith [sq_nonneg (g.vx * nx + g.vy * ny + 15 / 2)]
    simp only [ServerJs.ANGULAR_TRANSFER]
    rw [abs_le]
    constructor <;> nlinarith [ha.1, ha.2, hd]
  · rw [abs_le]
    constructor <;> nlinarith [ha.1, ha.2]

/-- Bounds through the first wall check of `Gun.update()`. -/
theorem wall1_bounds (g : ServerJs.Gun) (A : ℚ)
    (hs : ServerJs.speedSq g ≤ ServerJs.MAX_SPEED ^ 2) (ha : |g.av| ≤ A) :
    ServerJs.speedSq (ServerJs.wall1 g) ≤ ServerJs.MAX_SPEED ^ 2
    ∧ |(ServerJs.wall1 g).av| ≤ A + ServerJs.MAX_SPEED * ServerJs.ANGULAR_TRANSFER := by
  have hk : (0:ℚ) ≤ ServerJs.MAX_SPEED * ServerJs.ANGULAR_TRANSFER := by
    norm_num [ServerJs.MAX_SPEED, ServerJs.ANGULAR_TRANSFER]
  unfold ServerJs.wall1
  split_ifs with h
  · exact ⟨le_trans (speedSq_applyWallCollision_le 1 0 (by norm_num) _) hs,
      abs_av_applyWallCollision_le 1 0 (by norm_num) _ A hs ha⟩
  · exact ⟨hs, le_trans ha (le_add_of_nonneg_right hk)⟩

/-- Bounds through the second wall check of `Gun.update()`. -/
theorem wall2_bounds (g : ServerJs.Gun) (A : ℚ)
    (hs : ServerJs.speedSq g ≤ ServerJs.MAX_SPEED ^ 2) (ha : |g.av| ≤ A) :
    ServerJs.speedSq (ServerJs.wall2 g) ≤ ServerJs.MAX_SPEED ^ 2
    ∧ |(ServerJs.wall2 g).av| ≤ A + ServerJs.MAX_SPEED * ServerJs.ANGULAR_TRANSFER := by
  have hk : (0:ℚ) ≤ ServerJs.MAX_SPEED * ServerJs.ANGULAR_TRANSFER := by
    norm_num [ServerJs.MAX_SPEED, ServerJs.ANGULAR_TRANSFER]
  unfold ServerJs.wall2
  split_ifs with h
  · exact ⟨le_trans (speedSq_applyWallCollision_le (-1) 0 (by norm_num) _) hs,
      abs_av_applyWallCollision_le (-1) 0 (by norm_num) _ A hs ha⟩
  · exact ⟨hs, le_trans ha (le_add_of_nonneg_right hk)⟩

/-- Bounds through the third wall check of `Gun.update()`. -/
theorem wall3_bounds (g : ServerJs.Gun) (A : ℚ)
    (hs : ServerJs.speedSq g ≤ ServerJs.MAX_SPEED ^ 2) (ha : |g.av| ≤ A) :
    ServerJs.speedSq (ServerJs.wall3 g) ≤ ServerJs.MAX_SPEED ^ 2
    ∧ |(ServerJs.wall3 g).av| ≤ A + ServerJs.MAX_SPEED * ServerJs.ANGULAR_TRANSFER := by
  have hk : (0:ℚ) ≤ ServerJs.MAX_SPEED * ServerJs.ANGULAR_TRANSFER := by
    norm_num [ServerJs.MAX_SPEED, ServerJs.ANGULAR_TRANSFER]
  unfold ServerJs.wall3
  split_ifs with h
  · exact ⟨le_trans (speedSq_applyWallCollision_le 0 1 (by norm_num) _) hs,
      abs_av_applyWallCollision_le 0 1 (by norm_num) _ A hs ha⟩
  · exact ⟨hs, le_trans ha (le_add_of_nonneg_right hk)⟩

/-- Bounds through the fourth wall check of `Gun.update()`. -/
theorem wall4_bounds (g : ServerJs.Gun) (A : ℚ)
    (hs : ServerJs.speedSq g ≤ ServerJs.MAX_SPEED ^ 2) (ha : |g.av| ≤ A) :
    ServerJs.speedSq (ServerJs.wall4 g) ≤ ServerJs.MAX_SPEED ^ 2
    ∧ |(ServerJs.wall4 g).av| ≤ A + ServerJs.MAX_SPEED * ServerJs.ANGULAR_TRANSFER := by
  have hk : (0:ℚ) ≤ ServerJs.MAX_SPEED * ServerJs.ANGULAR_TRANSFER := by
    norm_num [ServerJs.MAX_SPEED, ServerJs.ANGULAR_TRANSFER]
  unfold ServerJs.wall4
  split_ifs with h
  · exact ⟨le_trans (speedSq_applyWallCollision_le 0 (-1) (by norm_num) _) hs,
      abs_av_applyWallCollision_le 0 (-1) (by norm_num) _ A hs ha⟩
  · exact ⟨hs, le_trans ha (le_add_of_nonneg_right hk)⟩

/-- C2 amended: after one full `Gun.update()` call the squared linear
speed never exceeds `MAX_SPEED ^ 2` (wall responses only reflect and
shrink the velocity); the angular speed is within
`MAX_ANGULAR_SPEED` right after the `ENERGY CLAMP` section, but the wall
responses run after the clamp and may push it beyond the configured
maximum — by at most one `MAX_SPEED * ANGULAR_TRANSFER` impulse per wall
check.  `r` is the `Math.hypot` value of the post-damping velocity. -/
theorem c2_energy_clamp (g : ServerJs.Gun) (r : ℚ) (hr0 : 0 ≤ r)
    (hr : r ^ 2 = ServerJs.speedSq
      (ServerJs.dampStep (ServerJs.integrateStep (ServerJs.gravityStep g)))) :
    ServerJs.speedSq (ServerJs.update r g) ≤ ServerJs.MAX_SPEED ^ 2
    ∧ |(ServerJs.clampStep r
        (ServerJs.dampStep (ServerJs.integrateStep (ServerJs.gravityStep g)))).av|
        ≤ ServerJs.MAX_ANGULAR_SPEED
    ∧ |(ServerJs.update r g).av|
        ≤ ServerJs.MAX_ANGULAR_SPEED
          + 4 * (ServerJs.MAX_SPEED * ServerJs.ANGULAR_TRANSFER) := by
  have h1 : ServerJs.speedSq (ServerJs.clampStep r
      (ServerJs.dampStep (ServerJs.integrateStep (ServerJs.gravityStep g))))
      ≤ ServerJs.MAX_SPEED ^ 2 := by
    rw [ServerJs.clampStep, speedSq_avClamp]
    exact speedSq_speedClamp_le r _ hr0 hr
  have h2 : |(ServerJs.clampStep r
      (ServerJs.dampStep (ServerJs.integrateStep (ServerJs.gravityStep g)))).av|
      ≤ ServerJs.MAX_ANGULAR_SPEED := abs_av_avClamp _
  have w1 := wall1_bounds _ _ h1 h2
  have w2 := wall2_bounds _ _ w1.1 w1.2
  have w3 := wall3_bounds _ _ w2.1 w2.2
  have w4 := wall4_bounds _ _ w3.1 w3.2
  refine ⟨w4.1, h2, le_trans w4.2 (le_of_eq (by ring))⟩

/-- The body state refuting the claimed angular bound: moving left into
the left wall at the moment the angular velocity already sits at the
negative clamp limit. -/
def gunC2 : ServerJs.Gun :=
  { x := 5, y := 300, vx := -2500/499, vy := -0.02, angle := 0, av := -0.25, radius := 20 }

/-- Counterexample for C2: with the true hypotenuse `r = 5` supplied
(first conjunct), one `Gun.update()` call on `gunC2` ends with angular
velocity `-0.295`, whose magnitude exceeds `MAX_ANGULAR_SPEED = 0.22` —
the wall response runs after the angular clamp and breaks the claimed
post-update bound. -/
theorem c2_counterexample :
    (5:ℚ) ^ 2 = ServerJs.speedSq
      (ServerJs.dampStep (ServerJs.integrateStep (ServerJs.gravityStep gunC2)))
    ∧ (ServerJs.update 5 gunC2).av = -59/200
    ∧ ¬ (|(ServerJs.update 5 gunC2).av| ≤ ServerJs.MAX_ANGULAR_SPEED) := by
  have hav : (ServerJs.update 5 gunC2).av = -59/200 := by
    norm_num [ServerJs.update, ServerJs.wallsStep, ServerJs.wall1, ServerJs.wall2,
      ServerJs.wall3, ServerJs.wall4, ServerJs.clampStep, ServerJs.speedClamp,
      ServerJs.avClamp, ServerJs.dampStep, ServerJs.integrateStep, ServerJs.gravityStep,
      ServerJs.applyWallCollision, ServerJs.speedSq, gunC2, ServerJs.GRAVITY,
      ServerJs.LINEAR_DAMPING, ServerJs.ROTATION_DAMPING, ServerJs.MAX_SPEED,
      ServerJs.MAX_ANGULAR_SPEED, ServerJs.WIDTH, ServerJs.HEIGHT,
      ServerJs.WALL_RESTITUTION, ServerJs.ANGULAR_TRANSFER]
  refine ⟨by norm_num [ServerJs.speedSq, ServerJs.dampStep, ServerJs.integrateStep,
    ServerJs.gravityStep, gunC2, ServerJs.GRAVITY, ServerJs.LINEAR_DAMPING,
    ServerJs.ROTATION_DAMPING], hav, ?_⟩
  rw [hav, abs_of_neg (by norm_num : (-59/200 : ℚ) < 0)]
  norm_num [ServerJs.MAX_ANGULAR_SPEED]

/-- Witness for C2's amended theorem: a body at rest in the interior,
with the true hypotenuse `r = 499/25000` of its post-damping velocity
supplied. -/
theorem c2_energy_clamp_witness :
    ServerJs.speedSq (ServerJs.update (499/25000) (ServerJs.mkGun 200 300 0))
        ≤ ServerJs.MAX_SPEED ^ 2
    ∧ |(ServerJs.clampStep (499/25000)
        (ServerJs.dampStep (ServerJs.integrateStep
          (ServerJs.gravityStep (ServerJs.mkGun 200 300 0))))).av|
        ≤ ServerJs.MAX_ANGULAR_SPEED
    ∧ |(ServerJs.update (499/25000) (ServerJs.mkGun 200 300 0)).av|
        ≤ ServerJs.MAX_ANGULAR_SPEED
          + 4 * (ServerJs.MAX_SPEED * ServerJs.ANGULAR_TRANSFER) :=
  c2_energy_clamp (ServerJs.mkGun 200 300 0) (499/25000) (by norm_num)
    (by norm_num [ServerJs.speedSq, ServerJs.dampStep, ServerJs.integrateStep,
      ServerJs.gravityStep, ServerJs.mkGun, ServerJs.GRAVITY, ServerJs.LINEAR_DAMPING,
      ServerJs.ROTATION_DAMPING])
